import Mathlib

/-!
# Verification of the skin-lesion analysis core
Shallow embedding of `src/client/src/utils/modelLoader.js` (class `ModelLoader`).

Conventions of the embedding:
* JS numbers are modelled as `ℚ` where the computation stays rational and as `ℝ`
  where `Math.sqrt` / `Math.PI` enter (IEEE-754 rounding is idealised away).
* `Math.round` is round-half-up: `⌊x + 1/2⌋`.
* JS string operations (`toLowerCase`, `includes`) are modelled over Lean
  strings; all labels and keywords involved are ASCII, where the semantics
  agree.
* Exceptions / rejected promises are modelled with `Except String`.
-/

/-- JS `Math.round` on a rational (rounds half up, as JS does). -/
def jsRoundQ (q : ℚ) : ℤ := ⌊q + 1/2⌋

/-- JS `Math.round` on a real (rounds half up, as JS does). -/
noncomputable def jsRoundR (x : ℝ) : ℤ := ⌊x + 1/2⌋

/-- Substring test on character lists: does `needle` occur inside `hay`?
Decidable executable model of JS `String.prototype.includes`. -/
def listContains (needle : List Char) : List Char → Bool
  | [] => needle.isEmpty
  | c :: t => needle.isPrefixOf (c :: t) || listContains needle t

/-- JS `hay.includes(needle)`. -/
def strContains (hay needle : String) : Bool :=
  listContains needle.toList hay.toList

/-- ASCII lower-casing of one character, as JS `toLowerCase` acts on ASCII. -/
def jsCharToLower (c : Char) : Char :=
  if 65 ≤ c.toNat ∧ c.toNat ≤ 90 then Char.ofNat (c.toNat + 32) else c

/-- JS `s.toLowerCase()` (all strings reaching it here are ASCII). -/
def jsToLower (s : String) : String := ⟨s.data.map jsCharToLower⟩

/-- One entry of MobileNet's `classify` output: `{className, probability}`. -/
structure Prediction where
  className : String
  probability : ℚ
  deriving DecidableEq, Repr

/-! ## Cancer path: `predictCancerWithMobileNet` (modelLoader.js lines 223-293) -/

/-- `skinKeywords` (line 246). -/
def skinKeywords : List String :=
  ["skin", "lesion", "mole", "spot", "rash", "dermatitis", "eczema"]

/-- `cancerKeywords` (line 247). -/
def cancerKeywords : List String :=
  ["cancer", "tumor", "malignant", "melanoma", "carcinoma"]

/-- `hasCancerKeyword` for a raw class name (lines 249, 251). -/
def hasCancerKeywordB (s : String) : Bool :=
  cancerKeywords.any (fun keyword => strContains (jsToLower s) keyword)

/-- `hasSkinKeyword` for a raw class name (lines 249-250). -/
def hasSkinKeywordB (s : String) : Bool :=
  skinKeywords.any (fun keyword => strContains (jsToLower s) keyword)

/-- The pre-clamp `cancerPercentage` computed from the top prediction
(lines 249-263). -/
def preClampPercentage (top : Prediction) : ℤ :=
  if hasCancerKeywordB top.className then
    jsRoundQ (top.probability * 100)
  else if hasSkinKeywordB top.className then
    jsRoundQ (top.probability * 30 + 10)
  else
    jsRoundQ (top.probability * 15 + 5)

/-- The ABCDE pattern flags record (`patterns`, lines 269-275 / 354-360). -/
structure Patterns where
  asymmetry : Bool
  border : Bool
  color : Bool
  diameter : Bool
  evolving : Bool
  deriving DecidableEq, Repr

/-! ## Custom-model cancer path: `predictCancerWithCustomModel` (lines 301-370)

`modelConfig.cancer.outputFormat` is the constant `'probabilities'` (line 34),
so the `outputFormat === 'logits'` softmax branch (lines 343-349) is statically
dead and is omitted from the embedding. `Math.max(...)` over the prediction
data is modelled on non-empty lists; an empty tensor read is returned as
`none`. -/

structure CustomCancerResult where
  cancerPercentage : ℤ
  confidence : ℚ
  patterns : Patterns
  deriving DecidableEq, Repr

/-- `predictCancerWithCustomModel`, from the raw prediction data and shape. -/
def customCancerResult (predictionData : List ℚ) (predictionShape : List ℕ) :
    Option CustomCancerResult :=
  match predictionData with
  | [] => none
  | d :: ds =>
    let listMax : ℚ := ds.foldl max d
    let (benignProb, malignantProb) : ℚ × ℚ :=
      if predictionShape.length = 1 then
        if predictionShape.getD 0 0 = 1 then
          (1 - d, d)
        else if predictionShape.getD 0 0 = 2 then
          (d, predictionData.getD 1 0)
        else
          (1 - listMax, listMax)
      else
        (1 - listMax, listMax)
    let cancerPercentage : ℤ := jsRoundQ (malignantProb * 100)
    some
      { cancerPercentage := max 5 (min 95 cancerPercentage)
        confidence := max benignProb malignantProb
        patterns :=
          { asymmetry := decide (malignantProb > 0.6)
            border := decide (malignantProb > 0.55)
            color := decide (malignantProb > 0.65)
            diameter := decide (malignantProb > 0.5)
            evolving := decide (malignantProb > 0.7) } }

example : hasCancerKeywordB "melanoma" = true := by decide
example : hasCancerKeywordB "Egyptian cat" = false := by decide
example : hasSkinKeywordB "band aid, rash guard" = true := by decide
example : preClampPercentage ⟨"melanoma", 9/10⟩ = 90 :=
  of_decide_eq_true (by with_unfolding_all rfl)
example : preClampPercentage ⟨"rash", 8/10⟩ = 34 :=
  of_decide_eq_true (by with_unfolding_all rfl)
example :
    customCancerResult [1/2] [1] =
      some ⟨50, 1/2, ⟨false, false, false, false, false⟩⟩ :=
  of_decide_eq_true (by with_unfolding_all rfl)

/-! ## Infection path: `predictInfectionWithMobileNet` (lines 391-494) -/

/-- The six fixed condition labels, in the order of the `conditions` array
(lines 409-416). -/
inductive Condition
  | bacterial
  | fungal
  | viral
  | eczema
  | psoriasis
  | normal
  deriving DecidableEq, Repr

/-- The `conditions` array (lines 409-416), in source order. -/
def conditionsList : List Condition :=
  [.bacterial, .fungal, .viral, .eczema, .psoriasis, .normal]

/-- The display string of each condition. -/
def Condition.label : Condition → String
  | .bacterial => "Bacterial Infection"
  | .fungal => "Fungal Infection"
  | .viral => "Viral Infection"
  | .eczema => "Eczema"
  | .psoriasis => "Psoriasis"
  | .normal => "Normal Skin"

/-- `conditionKeywords` (lines 419-426). -/
def conditionKeywords : Condition → List String
  | .bacterial => ["bacteria", "infection", "abscess", "boil", "cellulitis", "pustule", "pimple"]
  | .fungal => ["fungus", "fungal", "ringworm", "candidiasis", "athlete", "yeast", "mold"]
  | .viral => ["virus", "viral", "herpes", "shingles", "wart", "molluscum"]
  | .eczema => ["eczema", "dermatitis", "atopic", "rash", "itchy", "dry", "scaly"]
  | .psoriasis => ["psoriasis", "scaly", "plaque", "silver", "flaky"]
  | .normal => ["skin", "normal", "healthy", "clear"]

/-- `matchCount` for one prediction's lower-cased class name against one
condition's keyword list (line 439). -/
def matchCount (className : String) (c : Condition) : ℕ :=
  ((conditionKeywords c).filter (fun keyword => strContains className keyword)).length

/-- The per-prediction score contribution for one condition
(lines 433-449): a keyword match contributes `weight·matchFraction·100`;
`Normal Skin` accrues `weight·10` when its own keywords do not match. -/
def scoreStep (className : String) (weight : ℚ) (c : Condition) : ℚ :=
  if 0 < matchCount className c then
    weight * ((matchCount className c : ℚ) / ((conditionKeywords c).length : ℚ)) * 100
  else if c = .normal then
    weight * 10
  else 0

/-- `conditionScores` after the `predictions.forEach` loop (lines 429-449).
The weight of the prediction at `index` is `probability·(3−index)/3`
(line 435). -/
def conditionScores (preds : List Prediction) (c : Condition) : ℚ :=
  (preds.enum.map (fun p =>
    scoreStep (jsToLower p.2.className) (p.2.probability * ((3 : ℚ) - p.1) / 3) c)).sum

/-- `totalScore` (line 452): values of `conditionScores` summed in insertion
order. -/
def totalScore (preds : List Prediction) : ℚ :=
  (conditionsList.map (conditionScores preds)).sum

/-- `conditionProbabilities[condition]` before the final sum-to-100 fixup
(lines 457-463): normalized percentage when `totalScore > 0`, otherwise the
even-distribution fallback `round(100/6)`. -/
def condProbPre (preds : List Prediction) (c : Condition) : ℤ :=
  if 0 < totalScore preds then
    jsRoundQ (conditionScores preds c / totalScore preds * 100)
  else
    jsRoundQ (100 / (conditionsList.length : ℚ))

/-- The `primaryCondition`/`maxProb` scan (lines 454-469): fold over the
conditions in order, starting from `('Normal Skin', 0)`, taking a new pair
whenever the (integer) probability strictly exceeds the running maximum. -/
def primaryScan (preds : List Prediction) : Condition × ℤ :=
  conditionsList.foldl
    (fun acc c => if condProbPre preds c > acc.2 then (c, condProbPre preds c) else acc)
    (Condition.normal, 0)

/-- `primaryCondition`. -/
def primaryCondition (preds : List Prediction) : Condition := (primaryScan preds).1

/-- `maxProb` (an integer percentage on the 0-100 scale). -/
def maxProb (preds : List Prediction) : ℤ := (primaryScan preds).2

/-- Sum of the pre-fixup probabilities (line 472). -/
def sumPre (preds : List Prediction) : ℤ :=
  (conditionsList.map (condProbPre preds)).sum

/-- `conditionProbabilities` after the sum-to-100 fixup (lines 471-476):
if the values do not sum to 100, the residue `100 − sum` is added onto the
primary condition's entry. -/
def allConditions (preds : List Prediction) (c : Condition) : ℤ :=
  if sumPre preds ≠ 100 ∧ c = primaryCondition preds then
    condProbPre preds c + (100 - sumPre preds)
  else
    condProbPre preds c

/-- `hasInfection` (line 482): `primaryCondition !== 'Normal Skin' && maxProb > 0.3`.
`maxProb` here is the integer percentage computed above. -/
def hasInfection (preds : List Prediction) : Bool :=
  decide (primaryCondition preds ≠ Condition.normal) && decide ((maxProb preds : ℚ) > 0.3)

/-- The infection-path output record (lines 478-489); the fields not derived
from the scoring (`modelUsed`, `modelType`, `topPredictions`) are constants or
copies of the input and are omitted. -/
structure InfectionResult where
  primaryCondition : Condition
  confidence : ℤ
  allConditions : Condition → ℤ
  hasInfection : Bool

/-- `predictInfectionWithMobileNet`'s result for a non-empty prediction list
with top prediction `t`. (`confidence` reads `predictions[0]`, line 480.) -/
def infectionResult (t : Prediction) (preds : List Prediction) : InfectionResult :=
  { primaryCondition := primaryCondition preds
    confidence := jsRoundQ (t.probability * 100)
    allConditions := allConditions preds
    hasInfection := hasInfection preds }

example : matchCount "wart" .viral = 1 := by decide
example : conditionScores [⟨"zzz", 0⟩] .normal = 0 :=
  of_decide_eq_true (by with_unfolding_all rfl)
example : condProbPre [⟨"zzz", 0⟩] .bacterial = 17 :=
  of_decide_eq_true (by with_unfolding_all rfl)
example : primaryScan [⟨"zzz", 0⟩] = (.bacterial, 17) :=
  of_decide_eq_true (by with_unfolding_all rfl)
example : allConditions [⟨"zzz", 0⟩] .bacterial = 15 :=
  of_decide_eq_true (by with_unfolding_all rfl)
example : hasInfection [⟨"zzz", 0⟩] = true :=
  of_decide_eq_true (by with_unfolding_all rfl)

/-! ## Lesion analysis: `analyzeLesionDetails` (lines 601-817)

The decoded image is the `ImageData` of the canvas: a flat RGBA byte list of
length `width·height·4`. The happy path of the function is embedded; the
`catch` branch (lines 791-816) only fires on canvas/DOM failures, which do not
exist in the pure model. -/

/-- The decoded image (canvas `ImageData`). -/
structure JSImage where
  width : ℕ
  height : ℕ
  data : List ℕ
  deriving DecidableEq, Repr

/-- `data[i]` (in-range reads only occur in the source). -/
def byteAt (img : JSImage) (i : ℕ) : ℕ := img.data.getD i 0

/-- `grayscale[idx]` (lines 618-624): rounded luminance
`0.299·R + 0.587·G + 0.114·B`. -/
def grayAt (img : JSImage) (idx : ℕ) : ℤ :=
  jsRoundQ ((299/1000 : ℚ) * byteAt img (4*idx) + (587/1000 : ℚ) * byteAt img (4*idx+1)
    + (114/1000 : ℚ) * byteAt img (4*idx+2))

/-- `lesionMask[idx]` (lines 636-638): darker pixels are lesion candidates. -/
def maskAt (img : JSImage) (idx : ℕ) : Bool := grayAt img idx < 128

/-- The lesion cells `(x, y)` in the raster-scan order of the detection loop
(lines 631-646). -/
def memberCells (img : JSImage) : List (ℕ × ℕ) :=
  (List.range img.height).flatMap (fun y =>
    (List.range img.width).filterMap (fun x =>
      if maskAt img (y * img.width + x) then some (x, y) else none))

/-- `lesionPixels` / `area` (lines 628, 639, 651). -/
def areaOf (img : JSImage) : ℕ := (memberCells img).length

/-- `minX` (initialised to `canvas.width`, line 627, lowered by `Math.min`
over the lesion cells). -/
def minXOf (img : JSImage) : ℕ := (memberCells img).foldl (fun a c => min a c.1) img.width

/-- `maxX` (initialised to 0, raised by `Math.max` over the lesion cells). -/
def maxXOf (img : JSImage) : ℕ := (memberCells img).foldl (fun a c => max a c.1) 0

/-- `minY` (initialised to `canvas.height`). -/
def minYOf (img : JSImage) : ℕ := (memberCells img).foldl (fun a c => min a c.2) img.height

/-- `maxY` (initialised to 0). -/
def maxYOf (img : JSImage) : ℕ := (memberCells img).foldl (fun a c => max a c.2) 0

/-- `width = maxX - minX` (line 649; negative on an empty mask, hence `ℤ`). -/
def bboxWidth (img : JSImage) : ℤ := (maxXOf img : ℤ) - (minXOf img : ℤ)

/-- `height = maxY - minY` (line 650). -/
def bboxHeight (img : JSImage) : ℤ := (maxYOf img : ℤ) - (minYOf img : ℤ)

/-- `aspectRatio = width > 0 ? height / width : 1` (line 655). -/
def aspectRatio (img : JSImage) : ℚ :=
  if 0 < bboxWidth img then (bboxHeight img : ℚ) / (bboxWidth img : ℚ) else 1

/-- The inclusive loop range `for (i = a; i <= b; i++)` (empty when `a > b`). -/
def rangeIncl (a b : ℕ) : List ℕ := List.range' a (b + 1 - a)

/-- The border test of the perimeter loop (lines 663-670): the cell has at
least one 4-neighbour outside the mask; comparisons against `height - 1` and
`width - 1` follow the JS guards. -/
def isBorderCell (img : JSImage) (x y : ℕ) : Bool :=
  (decide (0 < y) && !maskAt img ((y - 1) * img.width + x))
    || (decide (y < img.height - 1) && !maskAt img ((y + 1) * img.width + x))
    || (decide (0 < x) && !maskAt img (y * img.width + (x - 1)))
    || (decide (x < img.width - 1) && !maskAt img (y * img.width + (x + 1)))

/-- `perimeter` (lines 658-673): count, over the bounding box, of mask cells
with a non-mask 4-neighbour. -/
def perimeterOf (img : JSImage) : ℕ :=
  ((rangeIncl (minYOf img) (maxYOf img)).map (fun y =>
    (rangeIncl (minXOf img) (maxXOf img)).countP (fun x =>
      maskAt img (y * img.width + x) && isBorderCell img x y))).sum

/-- `circularity` (line 674): `4π·area/perimeter²`, `0` when `perimeter = 0`.
Note the source applies no upper clamp here. -/
noncomputable def circularityOf (img : JSImage) : ℝ :=
  if 0 < perimeterOf img then
    (4 * Real.pi * (areaOf img : ℝ)) / ((perimeterOf img : ℝ) * (perimeterOf img : ℝ))
  else 0

/-- `diameter` in pixels (line 652): `sqrt(area/π)·2`. -/
noncomputable def diameterPx (img : JSImage) : ℝ :=
  Real.sqrt ((areaOf img : ℝ) / Real.pi) * 2

/-- The RGB triples of the mask pixels (`colors`, lines 677-683). -/
def lesionColors (img : JSImage) : List (ℕ × ℕ × ℕ) :=
  (List.range (img.width * img.height)).filterMap (fun idx =>
    if maskAt img idx then some (byteAt img (4*idx), byteAt img (4*idx+1), byteAt img (4*idx+2))
    else none)

/-- The mean squared colour deviation (`variance`, lines 687-697). -/
def colorVarianceQ (img : JSImage) : ℚ :=
  let cs := lesionColors img
  let n : ℚ := cs.length
  let avgR : ℚ := (cs.map (fun c => (c.1 : ℚ))).sum / n
  let avgG : ℚ := (cs.map (fun c => (c.2.1 : ℚ))).sum / n
  let avgB : ℚ := (cs.map (fun c => (c.2.2 : ℚ))).sum / n
  (cs.map (fun c =>
    ((c.1 : ℚ) - avgR)^2 + ((c.2.1 : ℚ) - avgG)^2 + ((c.2.2 : ℚ) - avgB)^2)).sum / n

/-- `colorVariation` (lines 686-700): `min(1, sqrt(variance)/255)`, `0` for an
empty colour list. -/
noncomputable def colorVariationOf (img : JSImage) : ℝ :=
  if 0 < (lesionColors img).length then
    min 1 (Real.sqrt (colorVarianceQ img : ℝ) / 255)
  else 0

/-- `centerX = (minX + maxX)/2` (line 703). -/
def centerX (img : JSImage) : ℚ := ((minXOf img : ℚ) + (maxXOf img : ℚ)) / 2

/-- `centerY = (minY + maxY)/2` (line 704). -/
def centerY (img : JSImage) : ℚ := ((minYOf img : ℚ) + (maxYOf img : ℚ)) / 2

/-- `avgRadius = diameter / 2` (line 705). -/
noncomputable def avgRadius (img : JSImage) : ℝ := diameterPx img / 2

/-- `borderPoints` (lines 706-726): the border-cell count; the loop repeats the
perimeter loop verbatim. -/
def borderPointsOf (img : JSImage) : ℕ :=
  ((rangeIncl (minYOf img) (maxYOf img)).map (fun y =>
    (rangeIncl (minXOf img) (maxXOf img)).countP (fun x =>
      maskAt img (y * img.width + x) && isBorderCell img x y))).sum

/-- `borderDeviation` (lines 706-726): accumulated `|dist − avgRadius|` over
the border cells, `dist` being the distance to the bbox centre. -/
noncomputable def borderDeviationOf (img : JSImage) : ℝ :=
  ((rangeIncl (minYOf img) (maxYOf img)).map (fun y =>
    ((rangeIncl (minXOf img) (maxXOf img)).map (fun x =>
      if maskAt img (y * img.width + x) && isBorderCell img x y then
        |Real.sqrt (((x : ℝ) - (centerX img : ℝ))^2 + ((y : ℝ) - (centerY img : ℝ))^2)
          - avgRadius img|
      else 0)).sum)).sum

/-- `borderIrregularity` (line 727): `min(1, borderDeviation/(borderPoints·avgRadius))`
when `borderPoints > 0`, else `0`. -/
noncomputable def borderIrregularityOf (img : JSImage) : ℝ :=
  if 0 < borderPointsOf img then
    min 1 (borderDeviationOf img / ((borderPointsOf img : ℝ) * avgRadius img))
  else 0

/-- `centerLineX = (minX + maxX)/2` (line 731). -/
def centerLineX (img : JSImage) : ℚ := ((minXOf img : ℚ) + (maxXOf img : ℚ)) / 2

/-- `leftHalfPixels` (lines 730-741): mask cells of the bbox left of the
vertical centre line. -/
def leftHalfPixels (img : JSImage) : ℕ :=
  ((rangeIncl (minYOf img) (maxYOf img)).map (fun y =>
    (rangeIncl (minXOf img) (maxXOf img)).countP (fun x =>
      maskAt img (y * img.width + x) && decide ((x : ℚ) < centerLineX img)))).sum

/-- `rightHalfPixels` (lines 730-741). -/
def rightHalfPixels (img : JSImage) : ℕ :=
  ((rangeIncl (minYOf img) (maxYOf img)).map (fun y =>
    (rangeIncl (minXOf img) (maxXOf img)).countP (fun x =>
      maskAt img (y * img.width + x) && !decide ((x : ℚ) < centerLineX img)))).sum

/-- `asymmetryScore` (lines 743-746): `|left − right| / total`, `0` when the
mask is empty. -/
def asymmetryScoreOf (img : JSImage) : ℚ :=
  if 0 < leftHalfPixels img + rightHalfPixels img then
    |(leftHalfPixels img : ℚ) - (rightHalfPixels img : ℚ)|
      / ((leftHalfPixels img : ℚ) + (rightHalfPixels img : ℚ))
  else 0

/-- `pixelsPerMM` (line 749). -/
def pixelsPerMM : ℚ := 10

/-- The local variable `diameterMM = diameter / pixelsPerMM` (line 752),
before any rounding. -/
noncomputable def diameterMMvar (img : JSImage) : ℝ := diameterPx img / (pixelsPerMM : ℝ)

/-- `Math.round(x·10)/10` (one decimal, fields `widthMM`… line 760-762). -/
noncomputable def round1R (x : ℝ) : ℝ := (jsRoundR (x * 10) : ℝ) / 10

/-- `Math.round(x·100)/100` (two decimals, fields `aspectRatio`… line 765). -/
noncomputable def round2R (x : ℝ) : ℝ := (jsRoundR (x * 100) : ℝ) / 100

/-- `Math.round(x·100)/100` on a rational. -/
def round2Q (x : ℚ) : ℚ := (jsRoundQ (x * 100) : ℚ) / 100

/-- `shape` (lines 767-771): `Round` when `0.8 < aspectRatio < 1.2` and
`circularity > 0.7` (strict bounds in the source), `Irregular` when
`aspectRatio > 1.5` or `< 0.67`, else `Oval`. -/
noncomputable def shapeOf (img : JSImage) : String :=
  if aspectRatio img > 0.8 ∧ aspectRatio img < 1.2 ∧ circularityOf img > 0.7 then "Round"
  else if aspectRatio img > 1.5 ∨ aspectRatio img < 0.67 then "Irregular"
  else "Oval"

/-- The numeric fields of the object literal returned by
`analyzeLesionDetails` (lines 754-790), in source order. JS object-literal
semantics give duplicated keys the **last** assigned value; the `diameter` key
appears twice (lines 759 and 788). The string field `shape` and the list field
`dominantColors` are modelled by their own definitions. -/
noncomputable def lesionNumericFields (img : JSImage) : List (String × ℝ) :=
  [("width", (jsRoundR (bboxWidth img : ℝ) : ℝ)),
   ("height", (jsRoundR (bboxHeight img : ℝ) : ℝ)),
   ("area", (jsRoundR (areaOf img : ℝ) : ℝ)),
   ("diameter", (jsRoundR (diameterPx img) : ℝ)),
   ("widthMM", round1R ((bboxWidth img : ℝ) / (pixelsPerMM : ℝ))),
   ("heightMM", round1R ((bboxHeight img : ℝ) / (pixelsPerMM : ℝ))),
   ("diameterMM", round1R (diameterMMvar img)),
   ("aspectRatio", round2R ((aspectRatio img : ℝ))),
   ("circularity", round2R (circularityOf img)),
   ("colorVariation", round2R (colorVariationOf img)),
   ("borderIrregularity", round2R (borderIrregularityOf img)),
   ("borderSmoothness", round2R (1 - borderIrregularityOf img)),
   ("asymmetryScore", round2R ((asymmetryScoreOf img : ℝ))),
   ("asymmetry", ((asymmetryScoreOf img : ℝ))),
   ("border", borderIrregularityOf img),
   ("color", colorVariationOf img),
   ("diameter", min 1 (diameterMMvar img / 6)),
   ("evolving", 0)]

/-- JS object-literal key semantics: the value of a key is the last one
assigned. -/
def jsLookupLast {α : Type} (fields : List (String × α)) (k : String) : Option α :=
  fields.foldl (fun acc kv => if kv.1 = k then some kv.2 else acc) none

/-- `lesionAnalysis.diameter` as read by the caller: the final value of the
duplicated `diameter` key. -/
noncomputable def lesionDiameterField (img : JSImage) : ℝ :=
  (jsLookupLast (lesionNumericFields img) "diameter").getD 0

/-- The ABCDE `patterns` flags of the MobileNet cancer path (lines 269-275).
`asymmetryScore`, `borderIrregularity` and `colorVariation` are read from the
returned record, i.e. in their 2-decimal rounded form; `diameter` reads the
final value of the duplicated `diameter` key; `evolving` is the literal
`false`. -/
noncomputable def mobilePatterns (img : JSImage) : Patterns :=
  { asymmetry := decide (round2Q (asymmetryScoreOf img) > 0.6)
    border := decide (round2R (borderIrregularityOf img) > 0.55)
    color := decide (round2R (colorVariationOf img) > 0.65)
    diameter := decide (lesionDiameterField img > 0.5)
    evolving := false }

/-- The cancer-path output record (lines 277-288); `lesionDetails`,
`modelUsed`, `modelType` and `topPredictions` are copies of the inputs or
constants and are omitted. -/
structure CancerResult where
  cancerPercentage : ℤ
  confidence : ℚ
  patterns : Patterns

/-- `predictCancerWithMobileNet`'s result for top prediction `top` on image
`img`: the percentage is clamped by `Math.max(5, Math.min(95, ...))`
(line 278). -/
noncomputable def mobileCancerResult (top : Prediction) (img : JSImage) : CancerResult :=
  { cancerPercentage := max 5 (min 95 (preClampPercentage top))
    confidence := top.probability
    patterns := mobilePatterns img }

/-! ## Pipeline: `predictCancer`, `predictInfection`, `analyzeImage`
(lines 210-215, 378-383, 859-875)

A model load (`loadCancerModel` / `loadInfectionModel`, which rethrow on
failure, lines 139-144 and 180-185) is a value of `Except String M`; the
external classifier (`model.classify`) is a function parameter. Each
instrumented function also returns the list of images passed to the
classifier, so classifier invocations are observable. The pipeline timestamp
`new Date().toISOString()` (line 869) is the explicit parameter `now`. -/

/-- `predictCancer` (lines 210-215) followed by `predictCancerWithMobileNet`:
load the model, run `classify`, read `predictions[0]` (a TypeError on an empty
list), and score. Errors propagate (lines 289-292 rethrow). -/
noncomputable def predictCancerT {M : Type} (loadModel : Except String M)
    (classify : M → JSImage → Except String (List Prediction)) (img : JSImage) :
    Except String CancerResult × List JSImage :=
  match loadModel with
  | .error e => (.error e, [])
  | .ok m =>
    match classify m img with
    | .error e => (.error e, [img])
    | .ok [] => (.error "TypeError: cannot read properties of undefined", [img])
    | .ok (top :: _) => (.ok (mobileCancerResult top img), [img])

/-- `predictInfection` (lines 378-383) followed by
`predictInfectionWithMobileNet`; `confidence` reads `predictions[0]`
(line 480), a TypeError on an empty list. Errors propagate (lines 490-493
rethrow). -/
def predictInfectionT {M : Type} (loadModel : Except String M)
    (classify : M → JSImage → Except String (List Prediction)) (img : JSImage) :
    Except String InfectionResult × List JSImage :=
  match loadModel with
  | .error e => (.error e, [])
  | .ok m =>
    match classify m img with
    | .error e => (.error e, [img])
    | .ok [] => (.error "TypeError: cannot read properties of undefined", [img])
    | .ok (top :: rest) => (.ok (infectionResult top (top :: rest)), [img])

/-- The record returned by `analyzeImage` (lines 866-870). -/
structure AnalyzeOutput where
  cancer : CancerResult
  infection : InfectionResult
  analyzedAt : String

/-- `analyzeImage` (lines 859-875): `Promise.all` starts both prediction
paths (so both classifier calls happen), and rejects with the first failure;
on success the combined record carries the `analyzedAt` timestamp `now`. -/
noncomputable def analyzeImageT {M : Type} (loadCancer loadInfection : Except String M)
    (classifyCancer classifyInfection : M → JSImage → Except String (List Prediction))
    (img : JSImage) (now : String) :
    Except String AnalyzeOutput × List JSImage :=
  let rc := predictCancerT loadCancer classifyCancer img
  let ri := predictInfectionT loadInfection classifyInfection img
  (match rc.1, ri.1 with
    | .ok c, .ok i => .ok ⟨c, i, now⟩
    | .error e, _ => .error e
    | .ok _, .error e => .error e,
   rc.2 ++ ri.2)

/-- `getFallbackCancerAnalysis` (lines 583-585): the randomized fallback was
removed; the function only throws. -/
def getFallbackCancerAnalysis : Except String CancerResult :=
  .error "MobileNet model failed to load. Cannot perform analysis without AI model."

/-- `getFallbackInfectionAnalysis` (lines 591-593): likewise only throws. -/
def getFallbackInfectionAnalysis : Except String InfectionResult :=
  .error "MobileNet model failed to load. Cannot perform analysis without AI model."

/-! ## Concrete images used by witnesses and counterexamples -/

/-- A 3×3 image: all white except a single black centre pixel. -/
def img3 : JSImage :=
  ⟨3, 3, (List.range 9).flatMap (fun i => if i = 4 then [0, 0, 0, 255] else [255, 255, 255, 255])⟩

/-- An 8×7 image: white border around a solid 6×5 black rectangle
(`x ∈ [1,6]`, `y ∈ [1,5]`), so the bbox is 5 wide and 4 tall. -/
def img87 : JSImage :=
  ⟨8, 7, (List.range 56).flatMap (fun i =>
    if 1 ≤ i % 8 ∧ i % 8 ≤ 6 ∧ 1 ≤ i / 8 ∧ i / 8 ≤ 5 then [0, 0, 0, 255]
    else [255, 255, 255, 255])⟩

/-- A 1×1 all-white image: the degenerate zero-area mask. -/
def imgWhite : JSImage := ⟨1, 1, [255, 255, 255, 255]⟩

example : areaOf img3 = 1 := of_decide_eq_true (by with_unfolding_all rfl)
example : perimeterOf img3 = 1 := of_decide_eq_true (by with_unfolding_all rfl)
example : areaOf img87 = 30 := of_decide_eq_true (by with_unfolding_all rfl)
example : perimeterOf img87 = 18 := of_decide_eq_true (by with_unfolding_all rfl)
example : minXOf img87 = 1 ∧ maxXOf img87 = 6 ∧ minYOf img87 = 1 ∧ maxYOf img87 = 5 :=
  of_decide_eq_true (by with_unfolding_all rfl)
example : aspectRatio img87 = 4/5 := of_decide_eq_true (by with_unfolding_all rfl)
example : areaOf imgWhite = 0 := of_decide_eq_true (by with_unfolding_all rfl)
example : perimeterOf imgWhite = 0 := of_decide_eq_true (by with_unfolding_all rfl)
example : aspectRatio imgWhite = 1 := of_decide_eq_true (by with_unfolding_all rfl)

/-! ## Helper lemmas (shared) -/

/-- The `primaryCondition`/`maxProb` fold never lowers the running maximum. -/
theorem foldl_scan_le (f : Condition → ℤ) (l : List Condition) (acc : Condition × ℤ) :
    acc.2 ≤ (l.foldl (fun a c => if f c > a.2 then (c, f c) else a) acc).2 := by
  induction l generalizing acc with
  | nil => exact le_refl _
  | cons c t ih =>
    refine le_trans ?_ (ih _)
    by_cases h : f c > acc.2
    · simp only [List.foldl]
      rw [if_pos h]
      exact le_of_lt h
    · simp only [List.foldl]
      rw [if_neg h]

/-- `maxProb` starts at 0 and only grows. -/
theorem maxProb_nonneg (preds : List Prediction) : 0 ≤ maxProb preds :=
  foldl_scan_le (condProbPre preds) conditionsList (Condition.normal, 0)

/-- Off the primary condition, the fixup leaves the normalized score alone. -/
theorem allConditions_off_primary (preds : List Prediction) (c : Condition)
    (h : c ≠ primaryCondition preds) : allConditions preds c = condProbPre preds c := by
  unfold allConditions
  rw [if_neg]
  rintro ⟨-, hc⟩
  exact h hc

/-! ## Claim theorems -/

/-- **C1.** For every image and every classifier prediction list, the risk
assessment returned by the cancer prediction path has `cancerPercentage`
between 5 and 95 inclusive: the computed percentage is clamped into `[5,95]`
(`Math.max(5, Math.min(95, …))`) before being returned, in both the MobileNet
path and the custom-model path. -/
theorem spec_c1 :
    (∀ (top : Prediction) (img : JSImage),
      5 ≤ (mobileCancerResult top img).cancerPercentage ∧
        (mobileCancerResult top img).cancerPercentage ≤ 95) ∧
    (∀ (predictionData : List ℚ) (predictionShape : List ℕ) (r : CustomCancerResult),
      customCancerResult predictionData predictionShape = some r →
        5 ≤ r.cancerPercentage ∧ r.cancerPercentage ≤ 95) := by
  constructor
  · intro top img
    refine ⟨le_max_left _ _, ?_⟩
    exact max_le (by norm_num) (min_le_left _ _)
  · intro data shape r h
    match data with
    | [] => simp [customCancerResult] at h
    | d :: ds =>
      simp only [customCancerResult, Option.some.injEq] at h
      subst h
      refine ⟨le_max_left _ _, ?_⟩
      exact max_le (by norm_num) (min_le_left _ _)

/-- **C1 witness**: the custom path on the singleton tensor `[0.5]` of shape
`[1]` produces a percentage inside `[5,95]`. -/
theorem spec_c1_witness :
    5 ≤ ((customCancerResult [1/2] [1]).getD
        ⟨0, 0, ⟨false, false, false, false, false⟩⟩).cancerPercentage ∧
      ((customCancerResult [1/2] [1]).getD
        ⟨0, 0, ⟨false, false, false, false, false⟩⟩).cancerPercentage ≤ 95 :=
  spec_c1.2 [1/2] [1] _ (of_decide_eq_true (by with_unfolding_all rfl))

/-- **C2.** For every prediction list, the `allConditions` map assigns an
integer score to each of the six fixed condition labels and those six scores
sum to exactly 100: the rounding residue `100 − sum` is added onto the primary
condition and every other condition keeps its normalized score. This holds for
whatever list the scoring runs on — in particular when no keyword matches and
the even-distribution fallback (`round(100/6)` each) runs — and therefore for
every record the infection path returns. -/
theorem spec_c2 :
    (∀ preds : List Prediction,
      (conditionsList.map (allConditions preds)).sum = 100 ∧
      ∀ c, c ≠ primaryCondition preds → allConditions preds c = condProbPre preds c) ∧
    (∀ (M : Type) (loadModel : Except String M)
      (classify : M → JSImage → Except String (List Prediction))
      (img : JSImage) (out : InfectionResult),
      (predictInfectionT loadModel classify img).1 = .ok out →
        (conditionsList.map out.allConditions).sum = 100) := by
  have key : ∀ preds : List Prediction, (conditionsList.map (allConditions preds)).sum = 100 := by
    intro preds
    have hS : sumPre preds =
        condProbPre preds .bacterial + condProbPre preds .fungal + condProbPre preds .viral +
        condProbPre preds .eczema + condProbPre preds .psoriasis + condProbPre preds .normal := by
      simp [sumPre, conditionsList]
      ring
    by_cases h : sumPre preds = 100
    · have hall : ∀ c, allConditions preds c = condProbPre preds c := by
        intro c
        unfold allConditions
        rw [if_neg]
        rintro ⟨hne, -⟩
        exact hne h
      simp only [conditionsList, List.map_cons, List.map_nil, List.sum_cons, List.sum_nil, hall]
      omega
    · rcases hp : primaryCondition preds with _ | _ | _ | _ | _ | _ <;>
      · simp only [conditionsList, List.map_cons, List.map_nil, List.sum_cons, List.sum_nil,
          allConditions, hp, h, ne_eq, not_false_eq_true, true_and, if_true, if_false,
          reduceCtorEq]
        omega
  refine ⟨fun preds => ⟨key preds, fun c hc => allConditions_off_primary preds c hc⟩, ?_⟩
  intro M loadModel classify img out h
  match hl : loadModel with
  | .error e => simp [predictInfectionT] at h
  | .ok m =>
    match hc : classify m img with
    | .error e => simp [predictInfectionT, hc] at h
    | .ok [] => simp [predictInfectionT, hc] at h
    | .ok (top :: rest) =>
      simp only [predictInfectionT, hc, Except.ok.injEq] at h
      subst h
      exact key (top :: rest)

/-- **C2 witness**: for the stub classifier returning the single prediction
`("zzz", 0)` — which matches no keyword, so the even-distribution fallback
runs — the returned map still sums to 100. -/
theorem spec_c2_witness :
    (conditionsList.map (infectionResult ⟨"zzz", 0⟩ [⟨"zzz", 0⟩]).allConditions).sum = 100 :=
  spec_c2.2 Unit (.ok ()) (fun _ _ => .ok [⟨"zzz", 0⟩]) img3 _ rfl

/-- **C3.** For a top prediction with confidence in `[0,1]`: a cancer-keyword
match gives pre-clamp percentage `round(confidence·100)`; otherwise a
skin-keyword match gives `round(confidence·30+10)`; otherwise
`round(confidence·15+5)`. In particular a top prediction
`("melanoma", 0.9)` yields `cancerPercentage = 90` and
`patterns.evolving = false`. -/
theorem spec_c3 (top : Prediction) (img : JSImage)
    (h0 : 0 ≤ top.probability) (h1 : top.probability ≤ 1) :
    (hasCancerKeywordB top.className = true →
      preClampPercentage top = jsRoundQ (top.probability * 100)) ∧
    (hasCancerKeywordB top.className = false → hasSkinKeywordB top.className = true →
      preClampPercentage top = jsRoundQ (top.probability * 30 + 10)) ∧
    (hasCancerKeywordB top.className = false → hasSkinKeywordB top.className = false →
      preClampPercentage top = jsRoundQ (top.probability * 15 + 5)) ∧
    (mobileCancerResult ⟨"melanoma", 9/10⟩ img).cancerPercentage = 90 ∧
    (mobileCancerResult ⟨"melanoma", 9/10⟩ img).patterns.evolving = false := by
  refine ⟨?_, ?_, ?_, ?_, rfl⟩
  · intro hc
    simp [preClampPercentage, hc]
  · intro hc hs
    simp [preClampPercentage, hc, hs]
  · intro hc hs
    simp [preClampPercentage, hc, hs]
  · have hpre : preClampPercentage ⟨"melanoma", 9/10⟩ = 90 :=
      of_decide_eq_true (by with_unfolding_all rfl)
    simp only [mobileCancerResult, hpre]
    decide

/-- **C3 witness**: at `("melanoma", 0.9)` the cancer branch applies and the
clamped output is 90. -/
theorem spec_c3_witness :
    preClampPercentage ⟨"melanoma", 9/10⟩ = jsRoundQ ((9/10 : ℚ) * 100) ∧
    (mobileCancerResult ⟨"melanoma", 9/10⟩ img3).cancerPercentage = 90 :=
  ⟨(spec_c3 ⟨"melanoma", 9/10⟩ img3 (by norm_num) (by norm_num)).1 (by decide),
   (spec_c3 ⟨"melanoma", 9/10⟩ img3 (by norm_num) (by norm_num)).2.2.2.1⟩

/-- **C4 counterexample.** The claim says `hasInfection` is true iff the
primary condition is not Normal Skin *and its normalized 0-100 score exceeds
30*. For the prediction list `[("zzz", 0)]` the even-distribution fallback
makes the primary condition Bacterial Infection with `maxProb = 17` (15 after
the sum fixup) — not exceeding 30 — yet the code sets `hasInfection = true`,
because it compares the percentage against `0.3`, not `30`. -/
theorem spec_c4_counterexample :
    hasInfection [⟨"zzz", 0⟩] = true ∧
    primaryCondition [⟨"zzz", 0⟩] ≠ Condition.normal ∧
    maxProb [⟨"zzz", 0⟩] = 17 ∧
    ¬(30 < maxProb [⟨"zzz", 0⟩]) ∧
    allConditions [⟨"zzz", 0⟩] (primaryCondition [⟨"zzz", 0⟩]) = 15 ∧
    ¬(30 < allConditions [⟨"zzz", 0⟩] (primaryCondition [⟨"zzz", 0⟩])) :=
  of_decide_eq_true (by with_unfolding_all rfl)

/-- **C4 (amended).** `hasInfection` is true iff the primary condition is not
Normal Skin and its pre-fixup normalized score `maxProb` — an integer on the
0-100 scale — is strictly greater than `0.3`, i.e. at least 1 (not greater
than 30 as the claim states). -/
theorem spec_c4 (preds : List Prediction) :
    hasInfection preds = true ↔
      (primaryCondition preds ≠ Condition.normal ∧ 1 ≤ maxProb preds) := by
  unfold hasInfection
  rw [Bool.and_eq_true, decide_eq_true_iff, decide_eq_true_iff]
  constructor
  · rintro ⟨hne, hgt⟩
    refine ⟨hne, ?_⟩
    by_contra hlt
    push_neg at hlt
    have h0 : maxProb preds ≤ 0 := by omega
    have : (maxProb preds : ℚ) ≤ 0 := by exact_mod_cast h0
    have : (0.3 : ℚ) < 0 := lt_of_lt_of_le hgt this
    norm_num at this
  · rintro ⟨hne, h1⟩
    refine ⟨hne, ?_⟩
    have : (1 : ℚ) ≤ (maxProb preds : ℚ) := by exact_mod_cast h1
    calc (0.3 : ℚ) < 1 := by norm_num
    _ ≤ (maxProb preds : ℚ) := this

/-- `borderDeviation` is a sum of absolute values, hence non-negative. -/
theorem borderDeviation_nonneg (img : JSImage) : 0 ≤ borderDeviationOf img := by
  unfold borderDeviationOf
  apply List.sum_nonneg
  intro x hx
  simp only [List.mem_map] at hx
  obtain ⟨y, -, rfl⟩ := hx
  apply List.sum_nonneg
  intro z hz
  simp only [List.mem_map] at hz
  obtain ⟨x', -, rfl⟩ := hz
  split
  · exact abs_nonneg _
  · exact le_refl 0

/-- `avgRadius` is non-negative (it is `sqrt(area/π)`). -/
theorem avgRadius_nonneg (img : JSImage) : 0 ≤ avgRadius img := by
  unfold avgRadius diameterPx
  positivity

/-- **C5 counterexample.** The claim says `circularity = min(1, 4π·area/perimeter²)`
and lies in `[0,1]`. On the 3×3 image with a single dark centre pixel the mask
has `area = 1` and `perimeter = 1`, and the source (line 674) computes
`circularity = 4π ≈ 12.57` with **no** upper clamp — greater than 1 and not
equal to the clamped value. -/
theorem spec_c5_counterexample :
    1 < circularityOf img3 ∧
    circularityOf img3 ≠
      min 1 ((4 * Real.pi * (areaOf img3 : ℝ)) /
        ((perimeterOf img3 : ℝ) * (perimeterOf img3 : ℝ))) := by
  have ha : areaOf img3 = 1 := of_decide_eq_true (by with_unfolding_all rfl)
  have hp : perimeterOf img3 = 1 := of_decide_eq_true (by with_unfolding_all rfl)
  have hc : circularityOf img3 = 4 * Real.pi := by
    unfold circularityOf
    rw [if_pos (by rw [hp]; norm_num), ha, hp]
    norm_num
  have hpi := Real.pi_gt_three
  constructor
  · rw [hc]; linarith
  · rw [hc]
    intro h
    have hmin : min 1 ((4 * Real.pi * (areaOf img3 : ℝ)) /
        ((perimeterOf img3 : ℝ) * (perimeterOf img3 : ℝ))) ≤ 1 := min_le_left _ _
    rw [← h] at hmin
    linarith

/-- **C5 (amended).** For every image: `asymmetryScore` and
`borderIrregularity` lie in `[0,1]` (the latter clamped by `min(1,·)`), and
`circularity` is non-negative and equals 0 when the perimeter count is 0 — but
it is **not** clamped above and can exceed 1. -/
theorem spec_c5 (img : JSImage) :
    0 ≤ asymmetryScoreOf img ∧ asymmetryScoreOf img ≤ 1 ∧
    0 ≤ borderIrregularityOf img ∧ borderIrregularityOf img ≤ 1 ∧
    0 ≤ circularityOf img ∧
    (perimeterOf img = 0 → circularityOf img = 0) := by
  have hL : (0 : ℚ) ≤ (leftHalfPixels img : ℚ) := Nat.cast_nonneg _
  have hR : (0 : ℚ) ≤ (rightHalfPixels img : ℚ) := Nat.cast_nonneg _
  refine ⟨?_, ?_, ?_, ?_, ?_, ?_⟩
  · unfold asymmetryScoreOf
    split
    · next hpos =>
      apply div_nonneg (abs_nonneg _)
      positivity
    · exact le_refl 0
  · unfold asymmetryScoreOf
    split
    · next hpos =>
      have hden : (0 : ℚ) < (leftHalfPixels img : ℚ) + (rightHalfPixels img : ℚ) := by
        exact_mod_cast hpos
      rw [div_le_one hden]
      rw [abs_le]
      constructor <;> linarith
    · norm_num
  · unfold borderIrregularityOf
    split
    · next hpos =>
      apply le_min (by norm_num)
      apply div_nonneg (borderDeviation_nonneg img)
      exact mul_nonneg (Nat.cast_nonneg _) (avgRadius_nonneg img)
    · exact le_refl 0
  · unfold borderIrregularityOf
    split
    · exact min_le_left _ _
    · norm_num
  · unfold circularityOf
    split
    · next hpos =>
      have hpi := Real.pi_pos
      positivity
    · exact le_refl 0
  · intro h
    unfold circularityOf
    rw [if_neg]
    omega

/-- **C5 witness**: the all-white 1×1 image has perimeter count 0, and the
amended theorem then yields `circularity = 0`. -/
theorem spec_c5_witness : circularityOf imgWhite = 0 :=
  (spec_c5 imgWhite).2.2.2.2.2 (of_decide_eq_true (by with_unfolding_all rfl))

/-- `for (i = a; i <= b; ...)` runs zero times when `a > b`. -/
theorem rangeIncl_empty (a b : ℕ) (h : b < a) : rangeIncl a b = [] := by
  unfold rangeIncl
  have h0 : b + 1 - a = 0 := by omega
  rw [h0]
  rfl

/-- `for (i = 0; i <= 0; ...)` runs once. -/
theorem rangeIncl_zero_zero : rangeIncl 0 0 = [0] := by decide

/-- An empty mask leaves the member-cell list empty. -/
theorem area_zero_members (img : JSImage) (h : areaOf img = 0) : memberCells img = [] := by
  unfold areaOf at h
  exact List.eq_nil_of_length_eq_zero h

/-- On an empty mask `width = maxX − minX = 0 − canvas.width`, so the
`width > 0` guard fails and `aspectRatio` defaults to 1 (line 655). -/
theorem area_zero_aspectRatio (img : JSImage) (h : areaOf img = 0) : aspectRatio img = 1 := by
  have hm := area_zero_members img h
  have hminX : minXOf img = img.width := by simp [minXOf, hm]
  have hmaxX : maxXOf img = 0 := by simp [maxXOf, hm]
  unfold aspectRatio
  rw [if_neg]
  unfold bboxWidth
  rw [hminX, hmaxX]
  omega

/-- On an empty mask the perimeter loop (over the degenerate bbox
`minY = height > maxY = 0`, or at worst the single cell `(0,0)` of a 0×0
canvas, which has no in-range neighbour) counts nothing. -/
theorem area_zero_perimeter (img : JSImage) (h : areaOf img = 0) : perimeterOf img = 0 := by
  have hm := area_zero_members img h
  have hminY : minYOf img = img.height := by simp [minYOf, hm]
  have hmaxY : maxYOf img = 0 := by simp [maxYOf, hm]
  have hminX : minXOf img = img.width := by simp [minXOf, hm]
  have hmaxX : maxXOf img = 0 := by simp [maxXOf, hm]
  unfold perimeterOf
  rw [hminY, hmaxY, hminX, hmaxX]
  rcases hh : img.height with _ | h'
  · rw [rangeIncl_zero_zero]
    simp only [List.map_cons, List.map_nil, List.sum_cons, List.sum_nil, add_zero]
    rcases hw : img.width with _ | w'
    · rw [rangeIncl_zero_zero]
      have hb : isBorderCell img 0 0 = false := by
        unfold isBorderCell
        rw [hh, hw]
        simp
      simp [List.countP_cons, hb]
    · rw [rangeIncl_empty (w' + 1) 0 (by omega)]
      simp
  · rw [rangeIncl_empty (h' + 1) 0 (by omega)]
    simp

/-- A zero perimeter count sends `circularity` to its 0 default (line 674). -/
theorem perimeter_zero_circularity (img : JSImage) (h : perimeterOf img = 0) :
    circularityOf img = 0 := by
  unfold circularityOf
  rw [if_neg]
  omega

/-- **C8 counterexample.** The claim labels a mask `Round` whenever
`0.8 ≤ aspectRatio ≤ 1.2` and `circularity > 0.7`. On the 8×7 image with a
solid 6×5 dark rectangle the bbox gives `aspectRatio = 4/5 = 0.8` exactly and
`circularity = 120π/324 > 0.7`, yet the source uses the strict comparison
`aspectRatio > 0.8` (line 767) and labels it `Oval`. -/
theorem spec_c8_counterexample :
    aspectRatio img87 = 4/5 ∧ (0.7 : ℝ) < circularityOf img87 ∧
    shapeOf img87 = "Oval" := by
  have har : aspectRatio img87 = 4/5 := of_decide_eq_true (by with_unfolding_all rfl)
  have ha : areaOf img87 = 30 := of_decide_eq_true (by with_unfolding_all rfl)
  have hp : perimeterOf img87 = 18 := of_decide_eq_true (by with_unfolding_all rfl)
  have hpi := Real.pi_gt_three
  have hc : circularityOf img87 = 4 * Real.pi * 30 / (18 * 18) := by
    unfold circularityOf
    rw [if_pos (by rw [hp]; norm_num), ha, hp]
    norm_num
  refine ⟨har, ?_, ?_⟩
  · rw [hc]
    rw [lt_div_iff (by norm_num : (0:ℝ) < 18 * 18)]
    linarith
  · unfold shapeOf
    rw [if_neg, if_neg]
    · rw [har]
      norm_num
    · rw [har]
      rintro ⟨habs, -⟩
      norm_num at habs

/-- **C8 (amended).** For every image the shape label follows the source's
strict test: `Round` iff `0.8 < aspectRatio < 1.2` (strict, not the claim's
inclusive bounds) and `circularity > 0.7`; `Irregular` iff not Round-eligible
and `aspectRatio > 1.5` or `< 0.67`; everything else — including every
zero-area mask — is `Oval`. -/
theorem spec_c8 (img : JSImage) :
    (areaOf img = 0 → shapeOf img = "Oval") ∧
    (shapeOf img = "Round" ↔
      (0.8 < aspectRatio img ∧ aspectRatio img < 1.2 ∧ (0.7 : ℝ) < circularityOf img)) ∧
    (shapeOf img = "Irregular" ↔
      (¬(0.8 < aspectRatio img ∧ aspectRatio img < 1.2 ∧ (0.7 : ℝ) < circularityOf img) ∧
        (1.5 < aspectRatio img ∨ aspectRatio img < 0.67))) := by
  refine ⟨?_, ?_⟩
  · intro h
    have har := area_zero_aspectRatio img h
    have hcirc := perimeter_zero_circularity img (area_zero_perimeter img h)
    unfold shapeOf
    rw [if_neg, if_neg]
    · rw [har]; norm_num
    · rintro ⟨-, -, hcg⟩
      rw [hcirc] at hcg
      norm_num at hcg
  · by_cases h1 : (0.8 < aspectRatio img ∧ aspectRatio img < 1.2 ∧ (0.7 : ℝ) < circularityOf img)
    · have hs : shapeOf img = "Round" := by unfold shapeOf; rw [if_pos h1]
      refine ⟨⟨fun _ => h1, fun _ => hs⟩, ?_, ?_⟩
      · intro hI
        rw [hs] at hI
        exact absurd hI (by decide)
      · rintro ⟨hn, -⟩
        exact absurd h1 hn
    · by_cases h2 : (1.5 < aspectRatio img ∨ aspectRatio img < 0.67)
      · have hs : shapeOf img = "Irregular" := by unfold shapeOf; rw [if_neg h1, if_pos h2]
        refine ⟨⟨?_, fun hc => absurd hc h1⟩, fun _ => ⟨h1, h2⟩, fun _ => hs⟩
        intro hR
        rw [hs] at hR
        exact absurd hR (by decide)
      · have hs : shapeOf img = "Oval" := by unfold shapeOf; rw [if_neg h1, if_neg h2]
        refine ⟨⟨?_, fun hc => absurd hc h1⟩, ?_, ?_⟩
        · intro hR
          rw [hs] at hR
          exact absurd hR (by decide)
        · intro hI
          rw [hs] at hI
          exact absurd hI (by decide)
        · rintro ⟨-, hc2⟩
          exact absurd hc2 h2

/-- **C8 witness**: the all-white image has `area = 0` and the amended theorem
labels it `Oval`. -/
theorem spec_c8_witness : shapeOf imgWhite = "Oval" :=
  (spec_c8 imgWhite).1 (of_decide_eq_true (by with_unfolding_all rfl))

/-- **C10.** In the record returned by `analyzeLesionDetails` the `diameter`
key is assigned twice (lines 759 and 788); JS object-literal semantics keep
the later value, so the field read by callers equals `min(1, diameterMM/6)`
built from the *unrounded* mm diameter (`diameterPx/10`), not the pixel-valued
equivalent diameter. Consequently `patterns.diameter` (line 273) is true
exactly when the estimated diameter exceeds 3 mm — 30 pixels at the fixed
10 px/mm constant. -/
theorem spec_c10 (img : JSImage) :
    lesionDiameterField img = min 1 (diameterMMvar img / 6) ∧
    (lesionNumericFields img).countP (fun kv => kv.1 == "diameter") = 2 ∧
    ((mobilePatterns img).diameter = true ↔ 30 < diameterPx img) ∧
    ((mobilePatterns img).diameter = true ↔ 3 < diameterMMvar img) := by
  have hmm : diameterMMvar img = diameterPx img / 10 := by
    unfold diameterMMvar pixelsPerMM
    norm_num
  have hfield : lesionDiameterField img = min 1 (diameterMMvar img / 6) := rfl
  have hdec : (mobilePatterns img).diameter = decide (lesionDiameterField img > 0.5) := rfl
  refine ⟨hfield, rfl, ?_, ?_⟩
  · rw [hdec, decide_eq_true_iff, hfield, hmm, gt_iff_lt, lt_min_iff, div_div]
    constructor
    · rintro ⟨-, h⟩
      rw [lt_div_iff (by norm_num : (0:ℝ) < 10 * 6)] at h
      linarith
    · intro h
      refine ⟨by norm_num, ?_⟩
      rw [lt_div_iff (by norm_num : (0:ℝ) < 10 * 6)]
      linarith
  · rw [hdec, decide_eq_true_iff, hfield, hmm, gt_iff_lt, lt_min_iff, div_div]
    constructor
    · rintro ⟨-, h⟩
      rw [lt_div_iff (by norm_num : (0:ℝ) < 10 * 6)] at h
      rw [lt_div_iff (by norm_num : (0:ℝ) < 10)]
      linarith
    · intro h
      rw [lt_div_iff (by norm_num : (0:ℝ) < 10)] at h
      refine ⟨by norm_num, ?_⟩
      rw [lt_div_iff (by norm_num : (0:ℝ) < 10 * 6)]
      linarith

/-- **C6.** If the classifier model fails to load or run, `predictCancer`,
`predictInfection` and `analyzeImage` propagate the failure as an explicit
error and return no assessment; the removed random fallbacks
(`getFallbackCancerAnalysis`, `getFallbackInfectionAnalysis`) can never return
a result. -/
theorem spec_c6 (M : Type) (loadC loadI : Except String M)
    (cC cI : M → JSImage → Except String (List Prediction))
    (img : JSImage) (now : String) (e : String) :
    (loadC = .error e → (predictCancerT loadC cC img).1 = .error e) ∧
    (∀ m, loadC = .ok m → cC m img = .error e →
      (predictCancerT loadC cC img).1 = .error e) ∧
    (loadI = .error e → (predictInfectionT loadI cI img).1 = .error e) ∧
    (∀ m, loadI = .ok m → cI m img = .error e →
      (predictInfectionT loadI cI img).1 = .error e) ∧
    (∀ o, ((predictCancerT loadC cC img).1 = .error e ∨
        (predictInfectionT loadI cI img).1 = .error e) →
      (analyzeImageT loadC loadI cC cI img now).1 ≠ .ok o) ∧
    (∀ r, getFallbackCancerAnalysis ≠ .ok r) ∧
    (∀ r, getFallbackInfectionAnalysis ≠ .ok r) := by
  refine ⟨?_, ?_, ?_, ?_, ?_, ?_, ?_⟩
  · intro h
    subst h
    rfl
  · intro m hm hc
    subst hm
    simp [predictCancerT, hc]
  · intro h
    subst h
    rfl
  · intro m hm hc
    subst hm
    simp [predictInfectionT, hc]
  · intro o hor
    rcases hc : (predictCancerT loadC cC img).1 with e1 | c1 <;>
      rcases hi : (predictInfectionT loadI cI img).1 with e2 | i2 <;>
      simp only [analyzeImageT, hc, hi] <;> try simp
    rcases hor with h | h
    · rw [hc] at h
      exact absurd h (by simp)
    · rw [hi] at h
      exact absurd h (by simp)
  · intro r h
    simp [getFallbackCancerAnalysis] at h
  · intro r h
    simp [getFallbackInfectionAnalysis] at h

/-- **C6 witness**: with a failed cancer-model load, `predictCancer` reports
that error and `analyzeImage` cannot return a combined record. -/
theorem spec_c6_witness :
    (predictCancerT (M := Unit) (.error "model down")
      (fun _ _ => .ok [⟨"melanoma", 9/10⟩]) img3).1 = .error "model down" ∧
    (analyzeImageT (M := Unit) (.error "model down") (.ok ())
      (fun _ _ => .ok [⟨"melanoma", 9/10⟩]) (fun _ _ => .ok [⟨"melanoma", 9/10⟩])
      img3 "2024-01-01T00:00:00.000Z").1 ≠
      .ok ⟨mobileCancerResult ⟨"melanoma", 9/10⟩ img3,
        infectionResult ⟨"melanoma", 9/10⟩ [⟨"melanoma", 9/10⟩],
        "2024-01-01T00:00:00.000Z"⟩ := by
  refine ⟨(spec_c6 Unit (.error "model down") (.ok ())
    (fun _ _ => .ok [⟨"melanoma", 9/10⟩]) (fun _ _ => .ok [⟨"melanoma", 9/10⟩])
    img3 "2024-01-01T00:00:00.000Z" "model down").1 rfl, ?_⟩
  exact (spec_c6 Unit (.error "model down") (.ok ())
    (fun _ _ => .ok [⟨"melanoma", 9/10⟩]) (fun _ _ => .ok [⟨"melanoma", 9/10⟩])
    img3 "2024-01-01T00:00:00.000Z" "model down").2.2.2.2.1 _
    (Or.inl ((spec_c6 Unit (.error "model down") (.ok ())
      (fun _ _ => .ok [⟨"melanoma", 9/10⟩]) (fun _ _ => .ok [⟨"melanoma", 9/10⟩])
      img3 "2024-01-01T00:00:00.000Z" "model down").1 rfl))

/-- **C7 counterexample.** The claim says a single `analyzeImage` call invokes
the external classifier exactly once. With a successful deterministic stub,
the observable call log of `analyzeImage` holds **two** classifier
invocations — `predictCancer` and `predictInfection` each run
`model.classify` on their own model instance (lines 238 and 406). -/
theorem spec_c7_counterexample :
    (analyzeImageT (M := Unit) (.ok ()) (.ok ())
      (fun _ _ => .ok [⟨"melanoma", 9/10⟩]) (fun _ _ => .ok [⟨"melanoma", 9/10⟩])
      img3 "2024-01-01T00:00:00.000Z").2.length ≠ 1 := by
  have h : (analyzeImageT (M := Unit) (.ok ()) (.ok ())
      (fun _ _ => .ok [⟨"melanoma", 9/10⟩]) (fun _ _ => .ok [⟨"melanoma", 9/10⟩])
      img3 "2024-01-01T00:00:00.000Z").2 = [img3, img3] := rfl
  rw [h]
  simp

/-- **C7 (amended).** Once both model loads succeed, a single `analyzeImage`
call invokes the external classifier exactly **twice** — once in the cancer
path and once in the infection path — both times on the same input image, so
with a deterministic classifier both scorers consume the same classifier
output. -/
theorem spec_c7 (M : Type) (loadC loadI : Except String M)
    (cC cI : M → JSImage → Except String (List Prediction))
    (img : JSImage) (now : String) (mc mi : M)
    (hC : loadC = .ok mc) (hI : loadI = .ok mi) :
    (analyzeImageT loadC loadI cC cI img now).2 = [img, img] := by
  subst hC
  subst hI
  have h1 : (predictCancerT (Except.ok mc) cC img).2 = [img] := by
    rcases hc : cC mc img with e | preds
    · simp [predictCancerT, hc]
    · rcases preds with _ | ⟨t, rest⟩ <;> simp [predictCancerT, hc]
  have h2 : (predictInfectionT (Except.ok mi) cI img).2 = [img] := by
    rcases hc : cI mi img with e | preds
    · simp [predictInfectionT, hc]
    · rcases preds with _ | ⟨t, rest⟩ <;> simp [predictInfectionT, hc]
  simp only [analyzeImageT]
  rw [h1, h2]
  rfl

/-- **C7 witness**: at a concrete deterministic stub the call log is exactly
two copies of the input image. -/
theorem spec_c7_witness :
    (analyzeImageT (M := Unit) (.ok ()) (.ok ())
      (fun _ _ => .ok [⟨"rash", 4/5⟩]) (fun _ _ => .ok [⟨"rash", 4/5⟩])
      img3 "2024-01-01T00:00:00.000Z").2 = [img3, img3] :=
  spec_c7 Unit (.ok ()) (.ok ())
    (fun _ _ => .ok [⟨"rash", 4/5⟩]) (fun _ _ => .ok [⟨"rash", 4/5⟩])
    img3 "2024-01-01T00:00:00.000Z" () () rfl rfl

/-- **C9 counterexample.** The claim says two `analyzeImage` calls with the
same image and deterministic stub yield identical output. The returned record
carries `analyzedAt: new Date().toISOString()` (line 869), so two calls one
millisecond apart differ. -/
theorem spec_c9_counterexample :
    (analyzeImageT (M := Unit) (.ok ()) (.ok ())
      (fun _ _ => .ok [⟨"melanoma", 9/10⟩]) (fun _ _ => .ok [⟨"melanoma", 9/10⟩])
      img3 "2024-01-01T00:00:00.000Z").1 ≠
    (analyzeImageT (M := Unit) (.ok ()) (.ok ())
      (fun _ _ => .ok [⟨"melanoma", 9/10⟩]) (fun _ _ => .ok [⟨"melanoma", 9/10⟩])
      img3 "2024-01-01T00:00:00.001Z").1 := by
  intro h
  have h1 : (analyzeImageT (M := Unit) (.ok ()) (.ok ())
      (fun _ _ => .ok [⟨"melanoma", 9/10⟩]) (fun _ _ => .ok [⟨"melanoma", 9/10⟩])
      img3 "2024-01-01T00:00:00.000Z").1 =
      .ok ⟨mobileCancerResult ⟨"melanoma", 9/10⟩ img3,
        infectionResult ⟨"melanoma", 9/10⟩ [⟨"melanoma", 9/10⟩],
        "2024-01-01T00:00:00.000Z"⟩ := rfl
  have h2 : (analyzeImageT (M := Unit) (.ok ()) (.ok ())
      (fun _ _ => .ok [⟨"melanoma", 9/10⟩]) (fun _ _ => .ok [⟨"melanoma", 9/10⟩])
      img3 "2024-01-01T00:00:00.001Z").1 =
      .ok ⟨mobileCancerResult ⟨"melanoma", 9/10⟩ img3,
        infectionResult ⟨"melanoma", 9/10⟩ [⟨"melanoma", 9/10⟩],
        "2024-01-01T00:00:00.001Z"⟩ := rfl
  rw [h1, h2] at h
  simp only [Except.ok.injEq, AnalyzeOutput.mk.injEq] at h
  exact absurd h.2.2 (by decide)

/-- **C9 (amended).** The two assessments and the classifier call log are a
deterministic function of the image and the classifier stub: across two calls
they are identical; only the `analyzedAt` timestamp follows the call time. -/
theorem spec_c9 (M : Type) (loadC loadI : Except String M)
    (cC cI : M → JSImage → Except String (List Prediction))
    (img : JSImage) (t1 t2 : String) :
    Except.map (fun o => o.cancer) (analyzeImageT loadC loadI cC cI img t1).1 =
      Except.map (fun o => o.cancer) (analyzeImageT loadC loadI cC cI img t2).1 ∧
    Except.map (fun o => o.infection) (analyzeImageT loadC loadI cC cI img t1).1 =
      Except.map (fun o => o.infection) (analyzeImageT loadC loadI cC cI img t2).1 ∧
    (analyzeImageT loadC loadI cC cI img t1).2 =
      (analyzeImageT loadC loadI cC cI img t2).2 := by
  rcases hc : (predictCancerT loadC cC img).1 with e1 | c1 <;>
    rcases hi : (predictInfectionT loadI cI img).1 with e2 | i2 <;>
    simp [analyzeImageT, hc, hi, Except.map]
